import Mathlib

/-!
Verification of the parcel-tracker core (src/my-app/src/App.jsx).

The JavaScript numbers are modelled as real numbers (exact arithmetic);
the ETA formatter, whose claims are about concrete rendered strings, is
modelled over `Option ℚ` where `none` stands for a non-finite input
(`NaN` / `Infinity`), so that `isFinite` failures are representable and
concrete evaluations stay decidable.  The resolver's artificial 500 ms
delay and the `lastUpdated` timestamp are environment effects with no
bearing on the resolved data and are not modelled.
-/

namespace ParcelTracker

noncomputable section

/-- A coordinate `[lat, lon]` from the source, in decimal degrees. -/
abbrev Coord := ℝ × ℝ

/-- Route metadata as stored in the `ROUTES` registry (App.jsx lines 4-52). -/
structure Route where
  trackingId : String
  status : String
  carrier : String
  origin : String
  destination : String
  path : List Coord

/-- The `CHN123` registry entry (App.jsx lines 6-21). -/
def chn123Route : Route :=
  { trackingId := "CHN123"
    status := "In Transit"
    carrier := "Phoenix Express"
    origin := "Chennai Central"
    destination := "Adyar, Chennai"
    path := [(13.0827, 80.2707), (13.0604, 80.2496), (13.0431, 80.2460),
             (13.0287, 80.2478), (13.0214, 80.2526), (13.0067, 80.2570),
             (13.0012, 80.2551)] }

/-- The `BLR555` registry entry (App.jsx lines 23-36). -/
def blr555Route : Route :=
  { trackingId := "BLR555"
    status := "Out for Delivery"
    carrier := "SouthLine Logistics"
    origin := "Bengaluru"
    destination := "Mysuru"
    path := [(12.9716, 77.5946), (12.8000, 77.4000), (12.6000, 76.9000),
             (12.4500, 76.6500), (12.2958, 76.6394)] }

/-- The `MUM777` registry entry (App.jsx lines 38-51). -/
def mum777Route : Route :=
  { trackingId := "MUM777"
    status := "In Transit"
    carrier := "Western Courier"
    origin := "Mumbai"
    destination := "Pune"
    path := [(19.0760, 72.8777), (18.9500, 73.1500), (18.8000, 73.3000),
             (18.6500, 73.5000), (18.5204, 73.8567)] }

/-- The `ROUTES` object as a key lookup (App.jsx lines 4-52). -/
def ROUTES (key : String) : Option Route :=
  if key = "CHN123" then some chn123Route
  else if key = "BLR555" then some blr555Route
  else if key = "MUM777" then some mum777Route
  else none

/-- JavaScript's `String.prototype.toUpperCase()`, character by character. -/
def jsToUpper (s : String) : String :=
  String.mk (s.data.map Char.toUpper)

/-- JavaScript's `String.prototype.trim()`: drop whitespace from both ends. -/
def jsTrim (s : String) : String :=
  String.mk (((s.data.dropWhile Char.isWhitespace).reverse.dropWhile Char.isWhitespace).reverse)

/-- Whether `sub` occurs as a contiguous subsequence of `l` (used to state that
an error message does, or does not, mention an id). -/
def containsSeq : List Char → List Char → Bool
  | _, [] => true
  | [], _ :: _ => false
  | a :: as, b :: bs => (List.isPrefixOf (b :: bs) (a :: as) : Bool) || containsSeq as (b :: bs)

/-- `fetchTracking` (App.jsx lines 55-67): uppercases the id, looks it up in
`ROUTES`, and rejects with the fixed message `"Tracking ID not found"` when
absent.  The artificial 500 ms delay and the `lastUpdated` timestamp are
environment effects and are not modelled. -/
def fetchTracking (trackingId : String) : Except String Route :=
  match ROUTES (jsToUpper trackingId) with
  | none => .error "Tracking ID not found"
  | some data => .ok data

/-- The resolution pipeline of `handleSearch` (App.jsx line 202):
`fetchTracking(trackingId.trim())`. -/
def handleSearchResolve (trackingId : String) : Except String Route :=
  fetchTracking (jsTrim trackingId)

/-- `toRad` (App.jsx line 70). -/
def toRad (deg : ℝ) : ℝ := deg * Real.pi / 180

/-- JavaScript's `Math.atan2(y, x)`. -/
def atan2 (y x : ℝ) : ℝ :=
  if 0 < x then Real.arctan (y / x)
  else if x < 0 then
    (if 0 ≤ y then Real.arctan (y / x) + Real.pi else Real.arctan (y / x) - Real.pi)
  else
    (if 0 < y then Real.pi / 2 else if y < 0 then -(Real.pi / 2) else 0)

/-- The intermediate `a` of `haversineMeters` (App.jsx lines 75-77):
`sin²(dLat/2) + cos(lat1)·cos(lat2)·sin²(dLon/2)`. -/
def havA (p q : Coord) : ℝ :=
  Real.sin (toRad (q.1 - p.1) / 2) ^ 2 +
    Real.cos (toRad p.1) * Real.cos (toRad q.1) * Real.sin (toRad (q.2 - p.2) / 2) ^ 2

/-- `haversineMeters` (App.jsx lines 71-80): `R * c` with `R = 6371000` and
`c = 2 * atan2(√a, √(1-a))`. -/
def haversineMeters (p q : Coord) : ℝ :=
  6371000 * (2 * atan2 (Real.sqrt (havA p q)) (Real.sqrt (1 - havA p q)))

/-- `pathDistanceMeters` (App.jsx lines 81-85): sum of `haversineMeters` over
consecutive pairs. -/
def pathDistanceMeters : List Coord → ℝ
  | p1 :: p2 :: rest => haversineMeters p1 p2 + pathDistanceMeters (p2 :: rest)
  | _ => 0

/-- The fixed courier average speed (App.jsx line 111). -/
def speedKmh : ℝ := 35

/-- The derived `{ total, covered, remaining }` record (spec: DistanceSnapshot). -/
structure DistanceSnapshot where
  total : ℝ
  covered : ℝ
  remaining : ℝ

/-- The `distances` memo (App.jsx lines 113-120): `total = pathDistanceMeters(path)`,
`covered = pathDistanceMeters(path.slice(0, idx + 1))`,
`remaining = Math.max(0, total - covered)`. -/
def distances (path : List Coord) (idx : ℕ) : DistanceSnapshot :=
  { total := pathDistanceMeters path
    covered := pathDistanceMeters (path.take (idx + 1))
    remaining := max 0 (pathDistanceMeters path - pathDistanceMeters (path.take (idx + 1))) }

/-- The `etaMinutes` memo (App.jsx lines 122-127): remaining distance divided by
the speed converted to meters per minute. -/
def etaMinutes (path : List Coord) (idx : ℕ) : ℝ :=
  (distances path idx).remaining / (speedKmh * 1000 / 60)

/-- The `progressPct` memo (App.jsx lines 224-227):
`Math.min(100, Math.max(0, covered / total * 100)) || 0`.  In this real-number
model `covered / 0 = 0` (Lean's convention), which coincides with the `|| 0`
coercion of the `NaN` that JavaScript produces when `total` is `0`. -/
def progressPct (path : List Coord) (idx : ℕ) : ℝ :=
  min 100 (max 0 ((distances path idx).covered / (distances path idx).total * 100))

/-- One firing of the 15 s interval updater (App.jsx lines 187-191):
`idx ↦ Math.min(idx + 1, path.length - 1)`. -/
def advanceIdx (path : List Coord) (i : ℕ) : ℕ :=
  min (i + 1) (path.length - 1)

/-- JavaScript's `Math.round`: round half away from zero upward,
i.e. `⌊q + 1/2⌋`. -/
def jsRound (q : ℚ) : ℤ := ⌊q + 1 / 2⌋

/-- `formatETA` (App.jsx lines 86-92).  `none` models a non-finite input
(`NaN` / `Infinity`), rejected by the `isFinite` guard; a finite JavaScript
number is modelled as a rational.  For `m ≥ 60 > 0`, JavaScript's `m % 60`
equals `m - 60·⌊m/60⌋`. -/
def formatETA (minutes : Option ℚ) : String :=
  match minutes with
  | none => "—"
  | some m =>
    if m < 0 then "—"
    else if m < 60 then toString (jsRound m) ++ " min"
    else toString ⌊m / 60⌋ ++ "h " ++ toString (jsRound (m - 60 * ⌊m / 60⌋)) ++ "m"


lemma pathD_nil : pathDistanceMeters [] = 0 := rfl

lemma pathD_single (p : Coord) : pathDistanceMeters [p] = 0 := rfl

lemma pathD_cons₂ (p q : Coord) (l : List Coord) :
    pathDistanceMeters (p :: q :: l) = haversineMeters p q + pathDistanceMeters (q :: l) := rfl

lemma atan2_nonneg {y x : ℝ} (hy : 0 ≤ y) (hx : 0 ≤ x) : 0 ≤ atan2 y x := by
  unfold atan2
  rcases lt_or_eq_of_le hx with h | h
  · rw [if_pos h]
    have hm := Real.arctan_strictMono.monotone (div_nonneg hy hx)
    rwa [Real.arctan_zero] at hm
  · rw [← h, if_neg (lt_irrefl 0), if_neg (lt_irrefl 0)]
    split_ifs with h1 h2
    · linarith [Real.pi_pos]
    · exact absurd h2 (not_lt.mpr hy)
    · exact le_refl 0

lemma haversineMeters_nonneg (p q : Coord) : 0 ≤ haversineMeters p q := by
  unfold haversineMeters
  have h := atan2_nonneg (Real.sqrt_nonneg (havA p q)) (Real.sqrt_nonneg (1 - havA p q))
  positivity

lemma pathD_nonneg (l : List Coord) : 0 ≤ pathDistanceMeters l := by
  match l with
  | [] => exact le_refl 0
  | [p] => exact le_refl 0
  | p :: q :: r =>
    rw [pathD_cons₂]
    exact add_nonneg (haversineMeters_nonneg p q) (pathD_nonneg (q :: r))


lemma sin_sq_toRad_swap (x y : ℝ) :
    Real.sin (toRad (x - y) / 2) ^ 2 = Real.sin (toRad (y - x) / 2) ^ 2 := by
  have h : toRad (x - y) / 2 = -(toRad (y - x) / 2) := by unfold toRad; ring
  rw [h, Real.sin_neg, neg_sq]

lemma havA_symm (p q : Coord) : havA p q = havA q p := by
  unfold havA
  rw [sin_sq_toRad_swap q.1 p.1, sin_sq_toRad_swap q.2 p.2]
  ring

lemma haversineMeters_symm (p q : Coord) : haversineMeters p q = haversineMeters q p := by
  unfold haversineMeters
  rw [havA_symm]

lemma toRad_zero : toRad 0 = 0 := by
  unfold toRad; ring

lemma atan2_zero_one : atan2 0 1 = 0 := by
  unfold atan2
  rw [if_pos one_pos, div_one, Real.arctan_zero]

lemma havA_self (p : Coord) : havA p p = 0 := by
  unfold havA
  simp only [sub_self, toRad_zero, zero_div, Real.sin_zero]
  norm_num

lemma haversineMeters_self (p : Coord) : haversineMeters p p = 0 := by
  unfold haversineMeters
  rw [havA_self, Real.sqrt_zero, sub_zero, Real.sqrt_one, atan2_zero_one]
  ring

lemma pathD_take_le (l : List Coord) : ∀ k : ℕ, pathDistanceMeters (l.take k) ≤ pathDistanceMeters l := by
  induction l with
  | nil => intro k; simp
  | cons a t ih =>
    intro k
    match k, t with
    | 0, t2 => simpa [pathD_nil] using pathD_nonneg (a :: t2)
    | k + 1, [] => simp
    | k + 1, b :: r =>
      match k with
      | 0 => simpa [pathD_single] using pathD_nonneg (a :: b :: r)
      | k + 1 =>
        have h := ih (k + 1)
        rw [List.take_succ_cons] at h
        rw [List.take_succ_cons, List.take_succ_cons, pathD_cons₂, pathD_cons₂]
        linarith


lemma pathD_append_pair (l : List Coord) (a b : Coord) :
    pathDistanceMeters (l ++ [a, b]) = pathDistanceMeters (l ++ [a]) + haversineMeters a b := by
  induction l with
  | nil => simp [pathD_cons₂, pathD_single, pathD_nil]
  | cons x t ih =>
    match t with
    | [] => simp [pathD_cons₂, pathD_single, pathD_nil]
    | y :: r =>
      have h := ih
      simp only [List.cons_append, pathD_cons₂] at *
      rw [h]
      ring

lemma pathD_reverse (l : List Coord) : pathDistanceMeters l.reverse = pathDistanceMeters l := by
  match l with
  | [] => rfl
  | [p] => rfl
  | a :: b :: r =>
    have ih := pathD_reverse (b :: r)
    rw [pathD_cons₂, List.reverse_cons, List.reverse_cons]
    rw [List.append_assoc]
    have h2 : ([b] ++ [a] : List Coord) = [b, a] := rfl
    rw [h2, pathD_append_pair, ← List.reverse_cons, ih, haversineMeters_symm]
    ring

lemma pathD_eq_zipWith_sum (l : List Coord) :
    pathDistanceMeters l = (List.zipWith haversineMeters l l.tail).sum := by
  match l with
  | [] => rfl
  | [p] => rfl
  | a :: b :: r =>
    have ih := pathD_eq_zipWith_sum (b :: r)
    rw [pathD_cons₂, ih]
    simp [List.zipWith]


lemma advanceIdx_iterate (path : List Coord) (N : ℕ) :
    (advanceIdx path)^[N] 0 = min N (path.length - 1) := by
  induction N with
  | zero => simp
  | succ n ih =>
    rw [Function.iterate_succ_apply', ih]
    unfold advanceIdx
    omega

lemma havA_pole : havA ((90 : ℝ), (0 : ℝ)) ((90 : ℝ), (100 : ℝ)) = 0 := by
  unfold havA
  have h90 : toRad 90 = Real.pi / 2 := by unfold toRad; ring
  norm_num [h90, toRad_zero, Real.sin_zero, Real.cos_pi_div_two]

lemma haversine_pole_zero : haversineMeters ((90 : ℝ), (0 : ℝ)) ((90 : ℝ), (100 : ℝ)) = 0 := by
  unfold haversineMeters
  rw [havA_pole, Real.sqrt_zero, sub_zero, Real.sqrt_one, atan2_zero_one]
  ring

/-- C1: each advance tick sets the index to `min(currentIndex + 1, lastIndex)`;
starting from 0, after `N ≥ length(path)` ticks the index is `length(path) - 1`;
the index stays within `[0, length(path) - 1]` (the lower bound holds since the
index is a natural number), is monotonically non-decreasing over the Route's
lifetime, and ticking at the last index is a no-op. -/
theorem C1_advance_tick_clamped (path : List Coord) (hlen : 1 ≤ path.length) :
    (∀ i, advanceIdx path i = min (i + 1) (path.length - 1)) ∧
    (∀ N, path.length ≤ N → (advanceIdx path)^[N] 0 = path.length - 1) ∧
    (∀ N, (advanceIdx path)^[N] 0 ≤ path.length - 1) ∧
    (∀ N, (advanceIdx path)^[N] 0 ≤ (advanceIdx path)^[N + 1] 0) ∧
    advanceIdx path (path.length - 1) = path.length - 1 := by
  refine ⟨fun i => rfl, fun N hN => ?_, fun N => ?_, fun N => ?_, ?_⟩
  · rw [advanceIdx_iterate]; omega
  · rw [advanceIdx_iterate]; omega
  · rw [advanceIdx_iterate, advanceIdx_iterate]; omega
  · unfold advanceIdx; omega

/-- Witness for C1 on the concrete BLR555 route (5 waypoints, 7 ticks). -/
theorem C1_advance_tick_clamped_witness :
    (advanceIdx blr555Route.path)^[7] 0 = blr555Route.path.length - 1 :=
  (C1_advance_tick_clamped blr555Route.path (by decide)).2.1 7 (by decide)

/-- C2: for every path and index, the derived DistanceSnapshot satisfies
`total ≥ 0`, `covered ≥ 0`, `covered ≤ total` and `covered + remaining = total`
(exactly, in real arithmetic). -/
theorem C2_distance_snapshot_invariants (path : List Coord) (idx : ℕ) :
    0 ≤ (distances path idx).total ∧
    0 ≤ (distances path idx).covered ∧
    (distances path idx).covered ≤ (distances path idx).total ∧
    (distances path idx).covered + (distances path idx).remaining = (distances path idx).total := by
  have hc : pathDistanceMeters (path.take (idx + 1)) ≤ pathDistanceMeters path :=
    pathD_take_le path (idx + 1)
  refine ⟨pathD_nonneg path, pathD_nonneg _, hc, ?_⟩
  show pathDistanceMeters (path.take (idx + 1)) +
      max 0 (pathDistanceMeters path - pathDistanceMeters (path.take (idx + 1))) =
      pathDistanceMeters path
  rw [max_eq_right (by linarith)]
  ring

/-- C3: `formatETA` returns the em-dash placeholder on non-finite or negative
input, renders rounded whole minutes with a " min" unit for `0 ≤ m < 60`, and
otherwise renders `⌊m/60⌋` hours with the remainder minutes rounded; the four
concrete examples of the spec evaluate as stated.  As a total function it never
throws. -/
theorem C3_formatETA_spec :
    formatETA none = "—" ∧
    (∀ m : ℚ, m < 0 → formatETA (some m) = "—") ∧
    (∀ m : ℚ, 0 ≤ m → m < 60 → formatETA (some m) = toString (⌊m + 1 / 2⌋ : ℤ) ++ " min") ∧
    (∀ m : ℚ, 60 ≤ m → formatETA (some m) =
      toString (⌊m / 60⌋ : ℤ) ++ "h " ++ toString (⌊m - 60 * ⌊m / 60⌋ + 1 / 2⌋ : ℤ) ++ "m") ∧
    formatETA (some 30) = "30 min" ∧
    formatETA (some 90) = "1h 30m" ∧
    formatETA (some 0) = "0 min" ∧
    formatETA (some (-5)) = "—" := by
  refine ⟨rfl, ?_, ?_, ?_, ?_, ?_, ?_, ?_⟩
  · intro m hm
    simp [formatETA, if_pos hm]
  · intro m hm0 hm60
    simp only [formatETA, jsRound, if_neg (not_lt.mpr hm0), if_pos hm60]
  · intro m hm
    have hm0 : ¬m < 0 := not_lt.mpr (le_trans (by norm_num : (0 : ℚ) ≤ 60) hm)
    have hm60 : ¬m < 60 := not_lt.mpr hm
    simp only [formatETA, jsRound, if_neg hm0, if_neg hm60]
  · norm_num [formatETA, jsRound]; rfl
  · norm_num [formatETA, jsRound]; rfl
  · norm_num [formatETA, jsRound]; rfl
  · norm_num [formatETA]

/-- Witness for C3 at concrete negative, sub-hour and super-hour inputs. -/
theorem C3_formatETA_spec_witness :
    formatETA (some (-3)) = "—" ∧
    formatETA (some 45) = toString (⌊(45 : ℚ) + 1 / 2⌋ : ℤ) ++ " min" ∧
    formatETA (some 135) = toString (⌊(135 : ℚ) / 60⌋ : ℤ) ++ "h " ++
      toString (⌊(135 : ℚ) - 60 * ⌊(135 : ℚ) / 60⌋ + 1 / 2⌋ : ℤ) ++ "m" :=
  ⟨C3_formatETA_spec.2.1 (-3) (by norm_num),
   C3_formatETA_spec.2.2.1 45 (by norm_num) (by norm_num),
   C3_formatETA_spec.2.2.2.1 135 (by norm_num)⟩

/-- C4 counterexample: resolving the missing id "ZZZ000" rejects with the fixed
message "Tracking ID not found", and that message does not contain the id, so
it does not identify the missing id as the claim states. -/
theorem C4_counterexample_generic_message :
    fetchTracking "ZZZ000" = Except.error "Tracking ID not found" ∧
    containsSeq "Tracking ID not found".data "ZZZ000".data = false :=
  ⟨rfl, by decide⟩

/-- C4 (amended): every id whose uppercased form is absent from the registry
fails with the fixed, id-independent message "Tracking ID not found"; in
particular resolving "ZZZ000" fails. -/
theorem C4_not_found_error (id : String) (h : ROUTES (jsToUpper id) = none) :
    fetchTracking id = Except.error "Tracking ID not found" := by
  unfold fetchTracking
  rw [h]

/-- Witness for C4 at the concrete missing id "ZZZ000". -/
theorem C4_not_found_error_witness :
    fetchTracking "ZZZ000" = Except.error "Tracking ID not found" :=
  C4_not_found_error "ZZZ000" rfl

/-- C5 (amended): the haversine distance is symmetric and the distance from any
coordinate to itself is zero (so `a = b` implies distance zero).  The converse
direction of the original claim — distance zero only if `a = b` — is refuted at
the poles by `C5_counterexample_pole`. -/
theorem C5_distance_symm_self_zero (a b : Coord) :
    haversineMeters a b = haversineMeters b a ∧ haversineMeters a a = 0 :=
  ⟨haversineMeters_symm a b, haversineMeters_self a⟩

/-- C5 counterexample: the two distinct coordinates `(90, 0)` and `(90, 100)`
(both with latitude in `[-90, 90]` and longitude in `[-180, 180]`) are at
haversine distance exactly `0` in real arithmetic, refuting
"distance(a, b) == 0 only if a == b". -/
theorem C5_counterexample_pole :
    haversineMeters ((90 : ℝ), (0 : ℝ)) ((90 : ℝ), (100 : ℝ)) = 0 ∧
    ((90 : ℝ), (0 : ℝ)) ≠ ((90 : ℝ), (100 : ℝ)) ∧
    -90 ≤ (90 : ℝ) ∧ (90 : ℝ) ≤ 90 ∧
    -180 ≤ (0 : ℝ) ∧ (0 : ℝ) ≤ 180 ∧ -180 ≤ (100 : ℝ) ∧ (100 : ℝ) ≤ 180 := by
  refine ⟨haversine_pole_zero, ?_, by norm_num, by norm_num, by norm_num, by norm_num,
    by norm_num, by norm_num⟩
  intro h
  have h2 := congrArg Prod.snd h
  norm_num at h2

/-- C6: `pathDistanceMeters` is the sum of the haversine distances over
consecutive pairs, is `0` for paths of length `0` or `1`, and the distance of a
path's first `i` points is monotone in `i`. -/
theorem C6_pathDistance_monotone_coverage (P : List Coord) :
    pathDistanceMeters P = (List.zipWith haversineMeters P P.tail).sum ∧
    (P.length ≤ 1 → pathDistanceMeters P = 0) ∧
    (∀ i j : ℕ, i ≤ j → pathDistanceMeters (P.take i) ≤ pathDistanceMeters (P.take j)) := by
  refine ⟨pathD_eq_zipWith_sum P, ?_, ?_⟩
  · intro h
    match P, h with
    | [], _ => rfl
    | [p], _ => rfl
  · intro i j hij
    have h1 : P.take i = (P.take j).take i := by
      rw [List.take_take, min_eq_left hij]
    rw [h1]
    exact pathD_take_le (P.take j) i

/-- Witness for C6: a length-one path has distance 0, and on the concrete
CHN123 route the first two points cover at least as much as the first one. -/
theorem C6_pathDistance_monotone_coverage_witness :
    pathDistanceMeters [((13 : ℝ), (80 : ℝ))] = 0 ∧
    pathDistanceMeters (chn123Route.path.take 1) ≤ pathDistanceMeters (chn123Route.path.take 2) :=
  ⟨(C6_pathDistance_monotone_coverage [((13 : ℝ), (80 : ℝ))]).2.1 (by norm_num),
   (C6_pathDistance_monotone_coverage chn123Route.path).2.2 1 2 (by norm_num)⟩

/-- C7: the path distance of every path equals the path distance of its
reversal. -/
theorem C7_pathDistance_reverse (P : List Coord) :
    pathDistanceMeters P = pathDistanceMeters P.reverse :=
  (pathD_reverse P).symm

/-- C8: the search pipeline normalizes the id by trimming whitespace and
uppercasing before the registry lookup, so any two ids with the same
normalization resolve identically; in particular "chn123" and "CHN123"
(also with surrounding whitespace) resolve to the identical CHN123 route
data. -/
theorem C8_resolve_case_insensitive :
    (∀ id1 id2 : String, jsToUpper (jsTrim id1) = jsToUpper (jsTrim id2) →
      handleSearchResolve id1 = handleSearchResolve id2) ∧
    handleSearchResolve "chn123" = handleSearchResolve "CHN123" ∧
    handleSearchResolve " chn123 " = Except.ok chn123Route := by
  refine ⟨?_, rfl, rfl⟩
  intro id1 id2 h
  unfold handleSearchResolve fetchTracking
  rw [h]

/-- Witness for C8: "chn123" and "Chn123" share a normalization and resolve
identically. -/
theorem C8_resolve_case_insensitive_witness :
    handleSearchResolve "chn123" = handleSearchResolve "Chn123" :=
  C8_resolve_case_insensitive.1 "chn123" "Chn123" rfl

/-- C9: the ETA estimate in minutes equals the remaining distance divided by
the fixed average speed converted to meters per minute, with the speed fixed
at 35 km/h. -/
theorem C9_eta_formula (path : List Coord) (idx : ℕ) :
    etaMinutes path idx = (distances path idx).remaining / (speedKmh * 1000 / 60) ∧
    speedKmh = 35 ∧
    etaMinutes path idx = (distances path idx).remaining / (35 * 1000 / 60) :=
  ⟨rfl, rfl, rfl⟩

/-- C10: the derived progress percentage always lies in `[0, 100]`, and when
the total distance is `0` it is `0` (the real-number counterpart of JavaScript
coercing the non-finite `covered / 0 * 100` to `0` via `|| 0`). -/
theorem C10_progress_clamped (path : List Coord) (idx : ℕ) :
    0 ≤ progressPct path idx ∧ progressPct path idx ≤ 100 ∧
    ((distances path idx).total = 0 → progressPct path idx = 0) := by
  refine ⟨?_, ?_, ?_⟩
  · unfold progressPct
    exact le_min (by norm_num) (le_max_left 0 _)
  · unfold progressPct
    exact min_le_left _ _
  · intro h
    unfold progressPct
    rw [h, div_zero]
    norm_num

/-- Witness for C10 on the empty path, whose total distance is 0. -/
theorem C10_progress_clamped_witness : progressPct [] 0 = 0 :=
  (C10_progress_clamped [] 0).2.2 rfl

end

end ParcelTracker
